import Mathlib

/-!
Shallow embedding of the two modules of the repository
`Natural-Language-Processing` (files `NLP_with_ML/process_survey.py` and
`NLP_with_ML/text_preprocessing.py`), together with theorems settling the
specification claims about them.

The aggregator `process_teacher_csvs` is modelled file-by-file: an input table
is the content of the "AVG" column as loaded by `pd.read_csv`, a cell being a
rational number or the NaN missing-value sentinel.  The text normalizer is
modelled at string level; the spaCy tokenizer/lemmatizer/stop-word list is an
external capability, kept abstract as a structure of three operations, exactly
as the specification describes it.
-/

set_option autoImplicit false

namespace SurveyNLP

/-- Model of one cell of a numeric-dtype "AVG" column: `some q` is a numeric
value, `none` is the NaN missing-value sentinel that pandas stores for an
empty or NA-marker cell.  A column containing a genuinely textual cell does
not load at this type at all: it becomes object dtype, which is modelled
below by `RawCell` and `processRawFile`. -/
abbrev Cell := Option ℚ

/-- Model of `pandas.Series.mean()` with its default `skipna=True`: the
arithmetic mean of the non-NaN values, and NaN (`none`) when there is no
non-NaN value (an empty slice included). -/
def seriesMean (l : List Cell) : Cell :=
  if (l.filterMap id).length = 0 then none
  else some ((l.filterMap id).sum / ((l.filterMap id).length : ℚ))

/-- Model of positional slicing `series.iloc[a:b]` for `a ≤ b`: pandas slices
with out-of-range bounds truncate to the available rows; slicing never raises
`IndexError`. -/
def ilocSlice (l : List Cell) (a b : ℕ) : List Cell :=
  (l.drop a).take (b - a)

/-- Model of one input table as loaded by `pd.read_csv` (line 48 of
process_survey.py): the column labels and the content of the "AVG" column
(irrelevant and empty when that column is absent).  The row count `len(df)`
is the length of `avg` when the column is present. -/
structure InputTable where
  columns : List String
  avg : List Cell

/-- One row of the result table built by `process_teacher_csvs`: the teacher
name and the four band means. -/
structure TeacherRecord where
  name : String
  instructor_skill : Cell
  interaction : Cell
  student_motivation : Cell
  course_organization : Cell
  deriving DecidableEq

/-- Outcome of the loop body of `process_teacher_csvs` for one loaded file:
skipped at the missing-column check (lines 50–53), skipped by the
`except IndexError` handler (lines 83–87), or a record appended (lines 69–74). -/
inductive FileResult where
  | noAvg : FileResult
  | notEnoughRows : FileResult
  | record : TeacherRecord → FileResult
  deriving DecidableEq

/-- Decides whether the character list starts with the four characters of
".csv". -/
def startsWithCsv : List Char → Bool
  | a :: b :: c :: d :: _ => a == '.' && b == 'c' && c == 's' && d == 'v'
  | _ => false

/-- Decides whether ".csv" occurs somewhere in the character list. -/
def hasCsvSub : List Char → Bool
  | [] => false
  | a :: rest => startsWithCsv (a :: rest) || hasCsvSub rest

/-- Model of Python `csv_file.replace('.csv', '')` (line 44 of
process_survey.py) on the character list: every non-overlapping occurrence of
".csv" is removed, scanning left to right without rescanning produced text. -/
def replaceCsv : List Char → List Char
  | [] => []
  | a :: b :: c :: d :: rest =>
    if a == '.' && b == 'c' && c == 's' && d == 'v' then replaceCsv rest
    else a :: replaceCsv (b :: c :: d :: rest)
  | a :: rest => a :: replaceCsv rest

/-- Teacher-name extraction from the file name, line 44 of process_survey.py:
`teacher_name = csv_file.replace('.csv', '')`. -/
def teacherName (fname : String) : String :=
  String.mk (replaceCsv fname.data)

/-- Model of the try-block of `process_teacher_csvs` (lines 56–67): the four
band means over `df['AVG'].iloc[...]`.  Because `iloc` slicing truncates, no
`IndexError` arises here; the error case of the result type is never
produced. -/
def extractBands (avg : List Cell) : Except Unit (Cell × Cell × Cell × Cell) :=
  Except.ok (seriesMean (ilocSlice avg 0 5), seriesMean (ilocSlice avg 5 11),
    seriesMean (ilocSlice avg 11 15), seriesMean (ilocSlice avg 15 21))

/-- Model of the loop body of `process_teacher_csvs` for one already-loaded
file: the missing-column check, band extraction guarded by
`except IndexError`, and record construction. -/
def processFile (fname : String) (t : InputTable) : FileResult :=
  if "AVG" ∈ t.columns then
    match extractBands t.avg with
    | Except.error _ => FileResult.notEnoughRows
    | Except.ok (a, b, c, d) =>
      FileResult.record ⟨teacherName fname, a, b, c, d⟩
  else FileResult.noAvg

/-- Failure of `pd.read_csv` on a single file (unreadable or malformed). -/
inductive LoadError where
  | unreadable : LoadError
  | malformed : LoadError
  deriving DecidableEq

/-- One entry of the directory listing (already filtered to names ending in
".csv" on line 37), together with the outcome `pd.read_csv` would produce
for it. -/
structure FileEntry where
  name : String
  content : Except LoadError InputTable

/-- Model of the whole loop of `process_teacher_csvs` (lines 42–90) over the
filtered directory listing.  The call `pd.read_csv(file_path)` on line 48 is
not inside any `try`; a load failure propagates out of the function and aborts
the run, so the result is `Except.error` as soon as any listed file fails to
load, and `Except.ok` with the in-order records otherwise. -/
def processDir : List FileEntry → Except LoadError (List TeacherRecord)
  | [] => Except.ok []
  | f :: rest =>
    match f.content with
    | Except.error e => Except.error e
    | Except.ok t =>
      match processDir rest with
      | Except.error e => Except.error e
      | Except.ok rs =>
        match processFile f.name t with
        | FileResult.record r => Except.ok (r :: rs)
        | _ => Except.ok rs

/-- Raw text content of one "AVG" cell before dtype resolution by
`pd.read_csv`: a cell that parses as a number, an empty/NA-marker cell (which
becomes float NaN), or a genuinely textual cell that does not parse as a
number. -/
inductive RawCell where
  | numeric : ℚ → RawCell
  | empty : RawCell
  | text : String → RawCell
  deriving DecidableEq

/-- Raw input table: the column labels and the raw text of the "AVG"
column. -/
structure RawTable where
  columns : List String
  avgRaw : List RawCell

/-- Decides whether some cell of the column is textual.  If so, `pd.read_csv`
leaves the whole column as strings: the column dtype is object, not
numeric. -/
def hasTextCell (l : List RawCell) : Bool :=
  l.any fun c =>
    match c with
    | RawCell.text _ => true
    | _ => false

/-- Numeric-dtype view of a column with no textual cell: numeric cells keep
their value, empty/NA cells become the NaN sentinel.  (The textual case is
mapped to NaN vacuously; it is never reached on the numeric-dtype path, which
is the only place this view is used.) -/
def parsedAvg (l : List RawCell) : List Cell :=
  l.map fun c =>
    match c with
    | RawCell.numeric q => some q
    | _ => none

/-- Python exception escaping `process_teacher_csvs`. -/
inductive PyError where
  | typeError : PyError
  deriving DecidableEq

/-- Model of the loop body of `process_teacher_csvs` on the raw table,
including the dtype behavior of `pd.read_csv`: a column containing a textual
cell loads as object dtype, and the first `Series.mean()` call on it
(line 58) raises `TypeError` — the handler on line 83 catches only
`IndexError`, so the exception escapes the whole function and no record is
emitted.  With no textual cell the column is numeric dtype and the body
behaves as `processFile` on the parsed cells. -/
def processRawFile (fname : String) (t : RawTable) : Except PyError FileResult :=
  if "AVG" ∈ t.columns then
    if hasTextCell t.avgRaw then Except.error PyError.typeError
    else Except.ok (processFile fname ⟨t.columns, parsedAvg t.avgRaw⟩)
  else Except.ok FileResult.noAvg

/-- Model of the character class `\w` of Python regexes (ASCII fragment):
alphanumeric characters and the underscore. -/
def wordChar (c : Char) : Bool := c.isAlphanum || c == '_'

/-- Model of `output.str.replace(r'[^\w\s]', '', regex=True)` (line 9 of
text_preprocessing.py): every character that is neither a word character nor
whitespace is removed; all other characters are kept in order. -/
def punctStrip (l : List Char) : List Char :=
  l.filter (fun c => wordChar c || c.isWhitespace)

/-- Helper for the non-greedy pattern `\[.*?\]` of line 8: given the characters
after a `[`, return the characters after the first following `]`, or `none`
when no `]` is reachable (`.` does not match a newline, so a newline blocks
the match). -/
def findClose : List Char → Option (List Char)
  | [] => none
  | c :: rest =>
    if c = ']' then some rest
    else if c = '\n' then none
    else findClose rest

/-- Fuel-indexed worker for `stripBrackets`; the fuel is an upper bound on the
number of characters still to be scanned, so the `0` case is never reached
when the function is called with the length of the list as fuel. -/
def stripBracketsGo : ℕ → List Char → List Char
  | _, [] => []
  | 0, l => l
  | fuel + 1, c :: rest =>
    if c = '[' then
      match findClose rest with
      | some rest2 => stripBracketsGo fuel rest2
      | none => c :: stripBracketsGo fuel rest
    else c :: stripBracketsGo fuel rest

/-- Model of `series.str.replace(r'\[.*?\]', '', regex=True)` (line 8 of
text_preprocessing.py): every non-greedy bracketed segment `[...]` is
removed; an unmatched `[` is kept and scanning continues after it. -/
def stripBrackets (l : List Char) : List Char :=
  stripBracketsGo l.length l

/-- Model of `remove_lower` (lines 6–10 of text_preprocessing.py).  The source
assigns `series.str.lower()` to `output` and then immediately reassigns
`output` from the original `series`, so the lowered text is discarded:
bracket stripping and punctuation stripping are applied to the original
string, and no lowercasing reaches the result. -/
def remove_lower (s : String) : String :=
  let _lowered := s.toLower
  String.mk (punctStrip (stripBrackets s.data))

/-- External NLP capability behind spaCy (`nlp`, `token.is_stop`,
`token.lemma_`): a tokenizer, a stop-word classifier and a lemmatizer, the
three operations the specification names. -/
structure NLPCapability where
  tokenize : String → List String
  isStop : String → Bool
  lemmaOf : String → String

/-- Model of `token_lemma_nonstop` (lines 12–15 of text_preprocessing.py):
keep the tokens that are not stop words, replace each by its lemma, and
rejoin with single spaces. -/
def token_lemma_nonstop (C : NLPCapability) (text : String) : String :=
  String.intercalate " "
    (((C.tokenize text).filter (fun t => !(C.isStop t))).map C.lemmaOf)

/-- Model of `clean_normalize` (lines 17–20 of text_preprocessing.py) on one
element of the series. -/
def clean_normalize (C : NLPCapability) (s : String) : String :=
  token_lemma_nonstop C (remove_lower s)

/-! Helper lemmas shared by several claims. -/

theorem filterMap_id_map_some (l : List ℚ) : (l.map some).filterMap id = l := by
  induction l with
  | nil => rfl
  | cons a l ih => simp [ih]

theorem seriesMean_all_none (l : List Cell) (h : ∀ x ∈ l, x = none) :
    seriesMean l = none := by
  unfold seriesMean
  have hnil : l.filterMap id = [] := by
    rw [List.filterMap_eq_nil_iff]
    intro a ha
    rw [h a ha]
    rfl
  rw [hnil]
  rfl

theorem seriesMean_band (l : List ℚ) (a k : ℕ) (hk : 0 < k)
    (hlen : a + k ≤ l.length) :
    seriesMean (ilocSlice (l.map some) a (a + k))
      = some (((l.drop a).take k).sum / (k : ℚ)) := by
  unfold ilocSlice seriesMean
  rw [Nat.add_sub_cancel_left, ← List.map_drop, ← List.map_take, filterMap_id_map_some]
  have hL : ((l.drop a).take k).length = k := by
    rw [List.length_take, List.length_drop]
    omega
  rw [hL, if_neg (by omega : ¬ k = 0)]

theorem processFile_numeric (fname : String) (t : InputTable) (l : List ℚ)
    (hcol : "AVG" ∈ t.columns) (hval : t.avg = l.map some) (hlen : 21 ≤ l.length) :
    processFile fname t = FileResult.record ⟨teacherName fname,
      some ((l.take 5).sum / (5 : ℚ)),
      some (((l.drop 5).take 6).sum / (6 : ℚ)),
      some (((l.drop 11).take 4).sum / (4 : ℚ)),
      some (((l.drop 15).take 6).sum / (6 : ℚ))⟩ := by
  have h1 := seriesMean_band l 0 5 (by norm_num) (by omega)
  have h2 := seriesMean_band l 5 6 (by norm_num) (by omega)
  have h3 := seriesMean_band l 11 4 (by norm_num) (by omega)
  have h4 := seriesMean_band l 15 6 (by norm_num) (by omega)
  norm_num at h1 h2 h3 h4
  unfold processFile extractBands
  rw [if_pos hcol, hval, h1, h2, h3, h4]

/-! Concrete tables and directories used as witnesses and counterexamples. -/

/-- Numeric AVG column of 21 rows: band values 2, 3, 4, 5 respectively. -/
def lC1 : List ℚ :=
  List.replicate 5 2 ++ List.replicate 6 3 ++ List.replicate 4 4 ++ List.replicate 6 5

/-- Table with an AVG column holding `lC1`. -/
def tC1 : InputTable := ⟨["AVG"], lC1.map some⟩

/-- Table with an AVG column of only 20 numeric rows, all equal to 1. -/
def t20 : InputTable := ⟨["AVG"], (List.replicate 20 ((1 : ℚ))).map some⟩

/-- Table with an AVG column of only 12 numeric rows, all equal to 1. -/
def t12 : InputTable := ⟨["AVG"], (List.replicate 12 ((1 : ℚ))).map some⟩

/-- Valid table: AVG column with 21 numeric rows. -/
def goodTable : InputTable := ⟨["AVG"], (List.replicate 21 ((1 : ℚ))).map some⟩

/-- Table whose columns do not include "AVG". -/
def tNoAvg : InputTable := ⟨["Q1", "Mean"], []⟩

/-- Raw table whose AVG column holds 21 cells, the first one textual. -/
def tText : RawTable :=
  ⟨["AVG"], RawCell.text "abc" :: List.replicate 20 (RawCell.numeric 1)⟩

/-- Raw table whose AVG column holds 21 empty (NaN) cells. -/
def tNaNRaw : RawTable := ⟨["AVG"], List.replicate 21 RawCell.empty⟩

/-- Directory listing with one unreadable file between two valid files. -/
def exDir : List FileEntry :=
  [⟨"a.csv", Except.ok goodTable⟩, ⟨"bad.csv", Except.error LoadError.unreadable⟩,
   ⟨"c.csv", Except.ok goodTable⟩]

/-- Claim C1: for a table with an "AVG" column of at least 21 numeric rows, the
emitted Teacher Record has Instructor_Skill equal to the arithmetic mean of
AVG rows [0,5), Interaction the mean of rows [5,11), Student_Motivation the
mean of rows [11,15), Course_Organization the mean of rows [15,21); and each
metric agrees with that of any second such table whose AVG values agree on the
metric's band, so each metric is independent of values outside its band. -/
theorem C1_band_means (fname : String) (t : InputTable) (l : List ℚ)
    (hcol : "AVG" ∈ t.columns) (hval : t.avg = l.map some) (hlen : 21 ≤ l.length) :
    ∃ r, processFile fname t = FileResult.record r ∧
      r.instructor_skill = some ((l.take 5).sum / (5 : ℚ)) ∧
      r.interaction = some (((l.drop 5).take 6).sum / (6 : ℚ)) ∧
      r.student_motivation = some (((l.drop 11).take 4).sum / (4 : ℚ)) ∧
      r.course_organization = some (((l.drop 15).take 6).sum / (6 : ℚ)) ∧
      (∀ (t2 : InputTable) (l2 : List ℚ), "AVG" ∈ t2.columns → t2.avg = l2.map some →
        21 ≤ l2.length →
        ∃ r2, processFile fname t2 = FileResult.record r2 ∧
          (l.take 5 = l2.take 5 → r.instructor_skill = r2.instructor_skill) ∧
          ((l.drop 5).take 6 = (l2.drop 5).take 6 → r.interaction = r2.interaction) ∧
          ((l.drop 11).take 4 = (l2.drop 11).take 4 →
            r.student_motivation = r2.student_motivation) ∧
          ((l.drop 15).take 6 = (l2.drop 15).take 6 →
            r.course_organization = r2.course_organization)) := by
  refine ⟨_, processFile_numeric fname t l hcol hval hlen, rfl, rfl, rfl, rfl, ?_⟩
  intro t2 l2 hcol2 hval2 hlen2
  refine ⟨_, processFile_numeric fname t2 l2 hcol2 hval2 hlen2, ?_, ?_, ?_, ?_⟩
  all_goals intro hEq
  all_goals simp only [hEq]

/-- Witness for C1 at a concrete 21-row table whose bands hold 2, 3, 4 and 5. -/
theorem C1_band_means_witness :
    ("AVG" ∈ tC1.columns) ∧ (tC1.avg = lC1.map some) ∧ (21 ≤ lC1.length) ∧
    (∃ r, processFile "x.csv" tC1 = FileResult.record r ∧
      r.instructor_skill = some ((lC1.take 5).sum / (5 : ℚ)) ∧
      r.interaction = some (((lC1.drop 5).take 6).sum / (6 : ℚ)) ∧
      r.student_motivation = some (((lC1.drop 11).take 4).sum / (4 : ℚ)) ∧
      r.course_organization = some (((lC1.drop 15).take 6).sum / (6 : ℚ)) ∧
      (∀ (t2 : InputTable) (l2 : List ℚ), "AVG" ∈ t2.columns → t2.avg = l2.map some →
        21 ≤ l2.length →
        ∃ r2, processFile "x.csv" t2 = FileResult.record r2 ∧
          (lC1.take 5 = l2.take 5 → r.instructor_skill = r2.instructor_skill) ∧
          ((lC1.drop 5).take 6 = (l2.drop 5).take 6 → r.interaction = r2.interaction) ∧
          ((lC1.drop 11).take 4 = (l2.drop 11).take 4 →
            r.student_motivation = r2.student_motivation) ∧
          ((lC1.drop 15).take 6 = (l2.drop 15).take 6 →
            r.course_organization = r2.course_organization))) :=
  ⟨by decide, rfl, by decide, C1_band_means "x.csv" tC1 lC1 (by decide) rfl (by decide)⟩

/-- Claim C2, evaluated at the failing input: a table with an "AVG" column and
only 20 rows is NOT excluded from the result; `process_teacher_csvs` emits a
record for it (Course_Organization is averaged over the five rows 15–19 that
exist), although the docstring and the `except IndexError` message of the
source demand at least 21 rows. -/
theorem seriesMean_replicate_one (n : ℕ) (h : 0 < n) :
    seriesMean (List.replicate n (some (1 : ℚ))) = some 1 := by
  unfold seriesMean
  have hfm : (List.replicate n (some (1 : ℚ))).filterMap id = List.replicate n 1 := by
    induction n with
    | zero => rfl
    | succ m ih => simp [List.replicate_succ, ih]
  have hne : ((n : ℚ)) ≠ 0 := Nat.cast_ne_zero.mpr (by omega)
  rw [hfm, List.length_replicate, List.sum_replicate, if_neg (by omega)]
  rw [nsmul_eq_mul, mul_one, div_self hne]

theorem C2_twenty_rows_not_skipped :
    t20.avg.length = 20 ∧
    processFile "t.csv" t20 = FileResult.record ⟨"t", some 1, some 1, some 1, some 1⟩ := by
  constructor
  · decide
  · unfold processFile extractBands t20
    rw [if_pos (by decide)]
    have h1 : ilocSlice ((List.replicate 20 ((1 : ℚ))).map some) 0 5
        = List.replicate 5 (some (1 : ℚ)) := by decide
    have h2 : ilocSlice ((List.replicate 20 ((1 : ℚ))).map some) 5 11
        = List.replicate 6 (some (1 : ℚ)) := by decide
    have h3 : ilocSlice ((List.replicate 20 ((1 : ℚ))).map some) 11 15
        = List.replicate 4 (some (1 : ℚ)) := by decide
    have h4 : ilocSlice ((List.replicate 20 ((1 : ℚ))).map some) 15 21
        = List.replicate 5 (some (1 : ℚ)) := by decide
    rw [h1, h2, h3, h4, seriesMean_replicate_one 5 (by omega),
      seriesMean_replicate_one 6 (by omega), seriesMean_replicate_one 4 (by omega)]
    rfl

/-- Claim C4, counterexample: a directory with one unreadable file between two
valid files does not yield a two-row result table; the whole run aborts with
the load error, because `pd.read_csv` is called outside any `try`. -/
theorem C4_counterexample : processDir exDir = Except.error LoadError.unreadable := rfl

/-- Claim C4, amended: a single-file load failure is not caught anywhere in
`process_teacher_csvs`; whenever any listed file fails to load, the whole run
aborts with a load error and no result table is produced. -/
theorem C4_load_error_aborts (files : List FileEntry) (f : FileEntry) (e : LoadError)
    (hf : f ∈ files) (he : f.content = Except.error e) :
    ∃ e2, processDir files = Except.error e2 := by
  induction files with
  | nil => cases hf
  | cons g rest ih =>
    rcases List.mem_cons.mp hf with hfg | hmem
    · subst hfg
      exact ⟨e, by simp only [processDir]; rw [he]⟩
    · obtain ⟨e2, h2⟩ := ih hmem
      cases hg : g.content with
      | error e3 => exact ⟨e3, by simp only [processDir]; rw [hg]⟩
      | ok t =>
        refine ⟨e2, ?_⟩
        simp only [processDir]
        rw [hg, h2]

/-- Witness for the amended C4 at the concrete directory `exDir`. -/
theorem C4_load_error_aborts_witness :
    ((⟨"bad.csv", Except.error LoadError.unreadable⟩ : FileEntry) ∈ exDir) ∧
    ((⟨"bad.csv", Except.error LoadError.unreadable⟩ : FileEntry).content
      = Except.error LoadError.unreadable) ∧
    (∃ e2, processDir exDir = Except.error e2) :=
  ⟨by unfold exDir; exact List.mem_cons_of_mem _ (List.mem_cons_self _ _), rfl,
    C4_load_error_aborts exDir ⟨"bad.csv", Except.error LoadError.unreadable⟩
      LoadError.unreadable
      (by unfold exDir; exact List.mem_cons_of_mem _ (List.mem_cons_self _ _)) rfl⟩

/-- Claim C5: a loaded table without an "AVG" column is skipped at the
column-existence check: no record is emitted for it, nothing is raised, and
the run over the remaining files is unchanged. -/
theorem C5_missing_avg_skipped (fname : String) (t : InputTable)
    (hcol : "AVG" ∉ t.columns) (rest : List FileEntry) :
    processFile fname t = FileResult.noAvg ∧
    processDir (⟨fname, Except.ok t⟩ :: rest) = processDir rest := by
  have h1 : processFile fname t = FileResult.noAvg := by
    unfold processFile
    rw [if_neg hcol]
  refine ⟨h1, ?_⟩
  simp only [processDir, h1]
  cases hres : processDir rest <;> rfl

/-- Witness for C5 at a concrete table without an "AVG" column. -/
theorem C5_missing_avg_skipped_witness :
    ("AVG" ∉ tNoAvg.columns) ∧
    (processFile "x.csv" tNoAvg = FileResult.noAvg ∧
      processDir [⟨"x.csv", Except.ok tNoAvg⟩] = processDir []) :=
  ⟨by decide, C5_missing_avg_skipped "x.csv" tNoAvg (by decide) []⟩

/-- Helper: on a numeric-dtype table (cells numeric or NaN) a record is
always emitted, and any band whose rows are all NaN gets the NaN sentinel as
its mean. -/
theorem processFile_nan_bands (fname : String) (t : InputTable)
    (hcol : "AVG" ∈ t.columns) :
    ∃ r, processFile fname t = FileResult.record r ∧
      ((∀ x ∈ ilocSlice t.avg 0 5, x = none) → r.instructor_skill = none) ∧
      ((∀ x ∈ ilocSlice t.avg 5 11, x = none) → r.interaction = none) ∧
      ((∀ x ∈ ilocSlice t.avg 11 15, x = none) → r.student_motivation = none) ∧
      ((∀ x ∈ ilocSlice t.avg 15 21, x = none) → r.course_organization = none) := by
  refine ⟨⟨teacherName fname, seriesMean (ilocSlice t.avg 0 5),
    seriesMean (ilocSlice t.avg 5 11), seriesMean (ilocSlice t.avg 11 15),
    seriesMean (ilocSlice t.avg 15 21)⟩, ?_, ?_, ?_, ?_, ?_⟩
  · unfold processFile extractBands
    rw [if_pos hcol]
  · exact fun h => seriesMean_all_none _ h
  · exact fun h => seriesMean_all_none _ h
  · exact fun h => seriesMean_all_none _ h
  · exact fun h => seriesMean_all_none _ h

/-- Claim C7, counterexample: a table whose "AVG" column contains a genuinely
textual cell makes the aggregator fail: the column loads as object dtype,
`Series.mean()` raises `TypeError`, the `except IndexError` handler does not
catch it, and no Teacher Record is emitted — the run aborts. -/
theorem C7_counterexample :
    processRawFile "t.csv" tText = Except.error PyError.typeError := rfl

/-- Claim C7, amended: non-numeric AVG cells pass through only when pandas
loads them as NaN (empty/NA-marker cells): then a Teacher Record is still
emitted and any band whose rows are all NaN gets the NaN sentinel as its
mean.  If instead some cell is genuinely textual, the object-dtype column
makes `Series.mean()` raise `TypeError`, which `except IndexError` does not
catch, and the run aborts with no record. -/
theorem C7_nan_passthrough_or_text_abort (fname : String) (t : RawTable)
    (hcol : "AVG" ∈ t.columns) :
    (hasTextCell t.avgRaw = true →
      processRawFile fname t = Except.error PyError.typeError) ∧
    (hasTextCell t.avgRaw = false →
      ∃ r, processRawFile fname t = Except.ok (FileResult.record r) ∧
        ((∀ x ∈ ilocSlice (parsedAvg t.avgRaw) 0 5, x = none) →
          r.instructor_skill = none) ∧
        ((∀ x ∈ ilocSlice (parsedAvg t.avgRaw) 5 11, x = none) →
          r.interaction = none) ∧
        ((∀ x ∈ ilocSlice (parsedAvg t.avgRaw) 11 15, x = none) →
          r.student_motivation = none) ∧
        ((∀ x ∈ ilocSlice (parsedAvg t.avgRaw) 15 21, x = none) →
          r.course_organization = none)) := by
  constructor
  · intro htext
    unfold processRawFile
    rw [if_pos hcol, if_pos htext]
  · intro htext
    obtain ⟨r, hr, h1, h2, h3, h4⟩ :=
      processFile_nan_bands fname ⟨t.columns, parsedAvg t.avgRaw⟩ hcol
    refine ⟨r, ?_, h1, h2, h3, h4⟩
    unfold processRawFile
    rw [if_pos hcol, if_neg (by simp [htext]), hr]

/-- Witness for the amended C7 at two concrete raw tables: one with a textual
cell (the run aborts with the TypeError) and one whose 21 cells are all NaN
(a record is emitted and all four band means are the NaN sentinel). -/
theorem C7_nan_passthrough_or_text_abort_witness :
    ("AVG" ∈ tText.columns) ∧ ("AVG" ∈ tNaNRaw.columns) ∧
    ((hasTextCell tText.avgRaw = true →
        processRawFile "t.csv" tText = Except.error PyError.typeError) ∧
      (hasTextCell tText.avgRaw = false →
        ∃ r, processRawFile "t.csv" tText = Except.ok (FileResult.record r) ∧
          ((∀ x ∈ ilocSlice (parsedAvg tText.avgRaw) 0 5, x = none) →
            r.instructor_skill = none) ∧
          ((∀ x ∈ ilocSlice (parsedAvg tText.avgRaw) 5 11, x = none) →
            r.interaction = none) ∧
          ((∀ x ∈ ilocSlice (parsedAvg tText.avgRaw) 11 15, x = none) →
            r.student_motivation = none) ∧
          ((∀ x ∈ ilocSlice (parsedAvg tText.avgRaw) 15 21, x = none) →
            r.course_organization = none))) ∧
    ((hasTextCell tNaNRaw.avgRaw = true →
        processRawFile "nan.csv" tNaNRaw = Except.error PyError.typeError) ∧
      (hasTextCell tNaNRaw.avgRaw = false →
        ∃ r, processRawFile "nan.csv" tNaNRaw = Except.ok (FileResult.record r) ∧
          ((∀ x ∈ ilocSlice (parsedAvg tNaNRaw.avgRaw) 0 5, x = none) →
            r.instructor_skill = none) ∧
          ((∀ x ∈ ilocSlice (parsedAvg tNaNRaw.avgRaw) 5 11, x = none) →
            r.interaction = none) ∧
          ((∀ x ∈ ilocSlice (parsedAvg tNaNRaw.avgRaw) 11 15, x = none) →
            r.student_motivation = none) ∧
          ((∀ x ∈ ilocSlice (parsedAvg tNaNRaw.avgRaw) 15 21, x = none) →
            r.course_organization = none))) :=
  ⟨by decide, by decide,
    C7_nan_passthrough_or_text_abort "t.csv" tText (by decide),
    C7_nan_passthrough_or_text_abort "nan.csv" tNaNRaw (by decide)⟩

/-- Claim C10: the `except IndexError` branch of `process_teacher_csvs` is
unreachable: `.iloc[start:end]` slicing truncates to the available rows
instead of raising, so for every input table, whatever its row count, the
outcome is the missing-column skip or an emitted record — never the
"Not enough rows" skip path. -/
theorem C10_index_error_unreachable (fname : String) (t : InputTable) :
    processFile fname t = FileResult.noAvg ∨
    ∃ r, processFile fname t = FileResult.record r := by
  unfold processFile extractBands
  by_cases h : "AVG" ∈ t.columns
  · rw [if_pos h]
    exact Or.inr ⟨_, rfl⟩
  · rw [if_neg h]
    exact Or.inl rfl

/-! Text-normalizer claims. -/

/-- Claim C3, evaluated at the spec's example input: the lowercasing of
`remove_lower` is dead code (the lowered series is immediately overwritten
from the original series), so uppercase letters survive the normalizer's
cleaning stage: the output for "Great [TA name] TEACHER!!" is
"Great  TEACHER", which still contains uppercase letters, although brackets
and punctuation are removed as claimed. -/
theorem C3_lowercase_discarded :
    remove_lower "Great [TA name] TEACHER!!" = "Great  TEACHER" ∧
    (remove_lower "Great [TA name] TEACHER!!").data.any Char.isUpper = true := by
  constructor
  · rfl
  · rfl

/-- Claim C6, counterexample: the underscore is kept by the punctuation-strip
stage (the regex class `\w` includes it), yet it is neither alphanumeric nor
whitespace, so the stage does not remove every such character. -/
theorem C6_counterexample :
    punctStrip ("a_b!" : String).data = ("a_b" : String).data ∧
    ('_' ∈ punctStrip ("a_b!" : String).data) ∧
    ('_'.isAlphanum = false ∧ '_'.isWhitespace = false) := by
  refine ⟨by decide, by decide, by decide, by decide⟩

/-- Claim C6, amended: the punctuation-strip stage removes exactly the
characters that are neither word characters (alphanumeric or underscore) nor
whitespace: a character survives it iff it occurred in the input and is
alphanumeric, an underscore, or whitespace. -/
theorem C6_punct_strip_characterization (l : List Char) (c : Char) :
    c ∈ punctStrip l ↔
      c ∈ l ∧ (c.isAlphanum = true ∨ c = '_' ∨ c.isWhitespace = true) := by
  unfold punctStrip wordChar
  rw [List.mem_filter]
  constructor
  · rintro ⟨h1, h2⟩
    refine ⟨h1, ?_⟩
    simp only [Bool.or_eq_true, beq_iff_eq] at h2
    tauto
  · rintro ⟨h1, h2⟩
    refine ⟨h1, ?_⟩
    simp only [Bool.or_eq_true, beq_iff_eq]
    tauto

/-- Claim C8: the normalizer maps the empty string to the empty string (the
tokenizer yields no tokens on empty input), and maps any string all of whose
tokens are stop words to the empty string; no error arises in either case. -/
theorem C8_empty_and_all_stop (C : NLPCapability) (s : String)
    (hEmpty : C.tokenize "" = [])
    (hstop : ∀ t ∈ C.tokenize (remove_lower s), C.isStop t = true) :
    clean_normalize C "" = "" ∧ clean_normalize C s = "" := by
  constructor
  · unfold clean_normalize token_lemma_nonstop
    rw [show remove_lower "" = "" from rfl, hEmpty]
    rfl
  · unfold clean_normalize token_lemma_nonstop
    have hfil : (C.tokenize (remove_lower s)).filter (fun t => !(C.isStop t)) = [] := by
      rw [List.filter_eq_nil_iff]
      intro a ha
      rw [hstop a ha]
      decide
    rw [hfil]
    rfl

/-- Splits a character list at spaces, dropping empty fragments; worker with
the reversed current word as accumulator. -/
def wsSplitGo (cur : List Char) : List Char → List String
  | [] => if cur = [] then [] else [String.mk cur.reverse]
  | c :: rest =>
    if c = ' ' then
      if cur = [] then wsSplitGo [] rest
      else String.mk cur.reverse :: wsSplitGo [] rest
    else wsSplitGo (c :: cur) rest

/-- Concrete stand-in for the spaCy capability, used only to witness C8:
whitespace tokenization, a two-word stop list and the identity lemmatizer. -/
def fakeNLP : NLPCapability where
  tokenize s := wsSplitGo [] s.data
  isStop t := t == "the" || t == "a"
  lemmaOf t := t

/-- Witness for C8 with the concrete capability and the all-stop-word input
"the a". -/
theorem C8_empty_and_all_stop_witness :
    (fakeNLP.tokenize "" = []) ∧
    (∀ t ∈ fakeNLP.tokenize (remove_lower "the a"), fakeNLP.isStop t = true) ∧
    (clean_normalize fakeNLP "" = "" ∧ clean_normalize fakeNLP "the a" = "") :=
  ⟨by decide, by decide, C8_empty_and_all_stop fakeNLP "the a" (by decide) (by decide)⟩

/-- Claim C9, counterexample: Python `str.replace` removes every occurrence of
".csv", not only a trailing extension: the file name "a.csvb.csv" yields the
teacher name "ab", while stripping only the trailing extension would keep
"a.csvb" (the Boolean comparison of the two is false). -/
theorem C9_counterexample :
    teacherName "a.csvb.csv" = "ab" ∧
    (teacherName "a.csvb.csv" == "a.csvb") = false := by
  refine ⟨by decide, by decide⟩

theorem rc1 (a : Char) : replaceCsv [a, '.', 'c', 's', 'v'] = [a] := by
  have hf : (('.' : Char) == 'c') = false := rfl
  simp only [replaceCsv, hf, Bool.and_false, Bool.false_and, Bool.false_eq_true, if_false]
  rfl

theorem rc2 (a b : Char) : replaceCsv [a, b, '.', 'c', 's', 'v'] = [a, b] := by
  have hf1 : (('.' : Char) == 's') = false := rfl
  have hf2 : (('.' : Char) == 'c') = false := rfl
  simp only [replaceCsv, hf1, hf2, Bool.and_false, Bool.false_and, Bool.false_eq_true, if_false]
  rfl

theorem rc3 (a b d : Char) : replaceCsv [a, b, d, '.', 'c', 's', 'v'] = [a, b, d] := by
  have hf1 : (('.' : Char) == 'v') = false := rfl
  have hf2 : (('.' : Char) == 's') = false := rfl
  have hf3 : (('.' : Char) == 'c') = false := rfl
  simp only [replaceCsv, hf1, hf2, hf3, Bool.and_false, Bool.false_and, Bool.false_eq_true,
    if_false]
  rfl

theorem replaceCsv_append_csv (f : List Char) (h : hasCsvSub f = false) :
    replaceCsv (f ++ ['.', 'c', 's', 'v']) = f := by
  induction f with
  | nil => rfl
  | cons a f2 ih =>
    rcases f2 with _ | ⟨b, _ | ⟨d, _ | ⟨e, f3⟩⟩⟩
    · exact rc1 a
    · exact rc2 a b
    · exact rc3 a b d
    · simp only [hasCsvSub, startsWithCsv, Bool.or_eq_false_iff] at h
      obtain ⟨h1, h2⟩ := h
      have h2a : hasCsvSub (b :: d :: e :: f3) = false := by
        simp only [hasCsvSub, startsWithCsv, Bool.or_eq_false_iff] at h2 ⊢
        exact h2
      simp only [List.cons_append, replaceCsv, h1, Bool.false_eq_true, if_false,
        List.append_eq]
      rw [show b :: d :: e :: (f3 ++ ['.', 'c', 's', 'v'])
          = (b :: d :: e :: f3) ++ ['.', 'c', 's', 'v'] from rfl, ih h2a]

/-- Claim C9, amended: the Name field removes every occurrence of ".csv" from
the file name; for a file name of the form `f ++ ".csv"` the Name equals `f`
exactly when `f` itself contains no ".csv" substring. -/
theorem C9_name_strips_extension (f : String) (h : hasCsvSub f.data = false) :
    teacherName (f ++ ".csv") = f := by
  obtain ⟨l⟩ := f
  unfold teacherName
  rw [show (String.mk l ++ (".csv" : String)).data = l ++ ['.', 'c', 's', 'v'] from rfl,
    replaceCsv_append_csv l h]

/-- Witness for the amended C9 at the concrete file name "teacherA.csv". -/
theorem C9_name_strips_extension_witness :
    hasCsvSub ("teacherA" : String).data = false ∧
    teacherName ("teacherA" ++ ".csv") = "teacherA" :=
  ⟨by decide, C9_name_strips_extension "teacherA" (by decide)⟩

end SurveyNLP
